import Mathlib

/-!
Shallow embedding of the soundhaven-server backend (src/src/index.ts and
prisma/schema.prisma) and proofs about its claims.

Conventions of the embedding:
* JavaScript values of type `string | undefined` (query parameters, cookies,
  optional JSON fields) are `Option String`; `none` is `undefined`.
  JavaScript truthiness of such a value is `jsTruthy` (undefined and the
  empty string are falsy).
* Each Express handler becomes a pure function from its inputs (parsed
  request data, the relevant database tables, and the responses of the
  upstream Spotify calls it performs) to an outcome structure recording the
  HTTP response and the new database state.  Effects that no claim touches
  (clearing the spotify_state cookie, CORS, logging) are omitted.
* Prisma tables are Lean lists of rows in insertion order; `findFirst` and
  `findUnique` are `List.find?`, `create` appends, `update`/`delete` map or
  filter by the row key.  The `createdAt` timestamps and surrogate ids that
  no claim mentions are omitted from row structures.
-/

namespace SoundHaven

/-- JavaScript truthiness of a `string | undefined` value: `undefined` and
the empty string are falsy, every other string is truthy. -/
def jsTruthy : Option String → Bool
  | none => false
  | some s => !(s == "")

/-! ## Upstream token endpoint -/

/-- Response of the Spotify token endpoint as the handlers see it
(`tokenRes.ok` plus the parsed JSON body fields used by the code). -/
structure TokenResponse where
  ok : Bool
  access_token : Option String
  refresh_token : Option String
  expires_in : Nat
deriving DecidableEq, Repr

/-! ## GET /api/auth/callback -/

/-- HTTP responses the auth handlers can produce. -/
inductive HttpResponse where
  | redirect (url : String)
  | badRequestText (msg : String)
deriving DecidableEq, Repr

/-- Outcome of the callback handler: the response sent, and whether the
handler issued the POST to the upstream token endpoint. -/
structure CallbackOutcome where
  resp : HttpResponse
  exchangedToken : Bool
deriving DecidableEq, Repr

/-- Embedding of the GET /api/auth/callback handler.  `code`, `state`,
`error` are the query parameters, `stored` is the spotify_state cookie,
`tok` is the upstream token-endpoint response (consulted only if the
handler reaches the exchange).  The JS guard `!state || state !== storedState`
becomes `jsTruthy state = false ∨ state ≠ stored`. -/
def authCallback (clientUrl : String) (_code state error stored : Option String)
    (tok : TokenResponse) : CallbackOutcome :=
  if error = some "access_denied" then
    ⟨.redirect (clientUrl ++ "/login?error=access_denied"), false⟩
  else if jsTruthy state = false ∨ state ≠ stored then
    ⟨.badRequestText "State mismatch", false⟩
  else if (tok.ok && jsTruthy tok.access_token) = false then
    ⟨.redirect (clientUrl ++ "/login?error=invalid_code"), true⟩
  else
    ⟨.redirect (clientUrl ++ "/cards?access_token=" ++ tok.access_token.getD ""), true⟩

/-! ## GET /api/auth/refresh -/

/-- Responses of the refresh handler: 401 without a cookie, 400 with the
upstream body on rejection, 200 with access token and expiry on success. -/
inductive RefreshResp where
  | unauthorized
  | upstreamError
  | okJson (access_token : String) (expires_in : Nat)
deriving DecidableEq, Repr

/-- Outcome of the refresh handler: the response, and the value written to
the refresh_token cookie (`none` when the cookie write is skipped and the
stored cookie stays as it was). -/
structure RefreshOutcome where
  resp : RefreshResp
  newRefreshCookie : Option String
deriving DecidableEq, Repr

/-- Embedding of the GET /api/auth/refresh handler.  `cookie` is the
refresh_token cookie, `tok` the upstream token-endpoint response.  The
cookie is re-issued only inside `if (data.refresh_token)`. -/
def authRefresh (cookie : Option String) (tok : TokenResponse) : RefreshOutcome :=
  if jsTruthy cookie = false then ⟨.unauthorized, none⟩
  else if (tok.ok && jsTruthy tok.access_token) = false then ⟨.upstreamError, none⟩
  else if jsTruthy tok.refresh_token then
    ⟨.okJson (tok.access_token.getD "") tok.expires_in, tok.refresh_token⟩
  else
    ⟨.okJson (tok.access_token.getD "") tok.expires_in, none⟩

/-! ## Discovery ledger (DiscoveryLog table) -/

/-- A row of the DiscoveryLog table (`createdAt` omitted: no claim uses it). -/
structure DiscoveryLog where
  id : String
  userId : String
  cardTitle : String
  trackUri : String
  added : Bool
deriving DecidableEq, Repr

/-- The prisma `where` clause used by both discovery handlers. -/
def matchesPair (u t : String) (l : DiscoveryLog) : Bool :=
  l.userId == u && l.trackUri == t

/-- `prisma.discoveryLog.findFirst` on the pair `(userId, trackUri)`. -/
def findDiscovery (logs : List DiscoveryLog) (u t : String) : Option DiscoveryLog :=
  logs.find? (matchesPair u t)

/-- Number of rows stored for the pair `(userId, trackUri)`. -/
def countDiscovery (logs : List DiscoveryLog) (u t : String) : Nat :=
  (logs.filter (matchesPair u t)).length

/-- Responses of POST /api/discovery: 400 on missing fields, 200 with the
message `Ya registrado` and the stored id, or the freshly created row. -/
inductive RecordResp where
  | badRequest
  | already (id : String)
  | created (log : DiscoveryLog)
deriving DecidableEq, Repr

/-- The entry id a record response reports to the client. -/
def RecordResp.entryId : RecordResp → Option String
  | .badRequest => none
  | .already i => some i
  | .created l => some l.id

/-- Embedding of the POST /api/discovery handler.  `freshId` is the cuid the
store would generate for a new row; `added ?? false` is `added.getD false`.
The body fields are strings, with the empty string standing for a missing or
falsy field (the `!userId || !cardTitle || !trackUri` guard). -/
def recordDiscovery (logs : List DiscoveryLog) (u cardTitle t : String)
    (added : Option Bool) (freshId : String) : RecordResp × List DiscoveryLog :=
  if u = "" ∨ cardTitle = "" ∨ t = "" then (.badRequest, logs)
  else
    match findDiscovery logs u t with
    | some e => (.already e.id, logs)
    | none => (.created ⟨freshId, u, cardTitle, t, added.getD false⟩,
        logs ++ [⟨freshId, u, cardTitle, t, added.getD false⟩])

/-- Responses of POST /api/discovery/mark-as-added. -/
inductive MarkResp where
  | badRequest
  | notFound
  | updated (log : DiscoveryLog)
  | alreadyMarked
deriving DecidableEq, Repr

/-- The row rewrite performed by `prisma.discoveryLog.update` on `id`. -/
def setAdded (targetId : String) (l : DiscoveryLog) : DiscoveryLog :=
  if l.id = targetId then { l with added := true } else l

/-- Embedding of the POST /api/discovery/mark-as-added handler.  The update
runs only when the found entry still has `added = false`. -/
def markAdded (logs : List DiscoveryLog) (u t : String) : MarkResp × List DiscoveryLog :=
  if u = "" ∨ t = "" then (.badRequest, logs)
  else
    match findDiscovery logs u t with
    | none => (.notFound, logs)
    | some e =>
      if e.added = false then
        (.updated { e with added := true }, logs.map (setAdded e.id))
      else (.alreadyMarked, logs)

/-- The operations of the system that touch the DiscoveryLog table:
the two discovery handlers and the cascade delete triggered when
GET /api/playlist/exists deletes a stale UserPlaylist row (the schema
declares `onDelete: Cascade` on the userPlaylist relation). -/
inductive DiscoveryOp where
  | record (u cardTitle t : String) (added : Option Bool) (freshId : String)
  | mark (u t : String)
  | cascadeDelete (u : String)

/-- Effect of a discovery-touching operation on the DiscoveryLog table. -/
def applyDiscoveryOp (logs : List DiscoveryLog) : DiscoveryOp → List DiscoveryLog
  | .record u c t a f => (recordDiscovery logs u c t a f).2
  | .mark u t => (markAdded logs u t).2
  | .cascadeDelete u => logs.filter (fun l => !(l.userId == u))

/-- Freshness of the id the store generates for an insert: a cuid never
collides with a stored id. -/
def opFresh (logs : List DiscoveryLog) : DiscoveryOp → Prop
  | .record _ _ _ _ f => ∀ l ∈ logs, l.id ≠ f
  | .mark _ _ => True
  | .cascadeDelete _ => True

/-! ## Daily card selector (Card and DailyCard tables) -/

/-- A row of the Card table.  `uri` is unique and `id` is the
autoincrement primary key, so a stored table has pairwise distinct ids. -/
structure Card where
  id : Nat
  title : String
  artist : String
  uri : String
  img : String
  cover : String
  description : String
deriving DecidableEq, Repr

/-- A row of the DailyCard table; `date` is the UTC day (midnight) as a day
index.  The schema declares `@@unique([userId, cardId, date])`. -/
structure DailyCard where
  userId : String
  cardId : Nat
  date : Nat
deriving DecidableEq, Repr

/-- The track uris the user has already discovered (`seenUris` in the
handler). -/
def seenUris (logs : List DiscoveryLog) (u : String) : List String :=
  (logs.filter (fun l => l.userId == u)).map DiscoveryLog.trackUri

/-- `prisma.card.findMany` with `uri notIn seenUris` (the `pool`). -/
def unseenPool (cards : List Card) (logs : List DiscoveryLog) (u : String) : List Card :=
  cards.filter (fun c => !((seenUris logs u).contains c.uri))

/-- The `where` clause selecting the assignments of `(userId, day)`. -/
def isTodays (u : String) (day : Nat) (d : DailyCard) : Bool :=
  d.userId == u && d.date == day

/-- The DailyCard rows already stored for `(userId, day)`. -/
def todaysAssignments (assigns : List DailyCard) (u : String) (day : Nat) :
    List DailyCard :=
  assigns.filter (isTodays u day)

/-- Foreign-key join of a DailyCard row to its Card row (`include card`). -/
def lookupCard (cards : List Card) (cid : Nat) : Option Card :=
  cards.find? (fun c => c.id == cid)

/-- The card list produced from stored assignments (`daily.map(d => d.card)`). -/
def joinCards (cards : List Card) (ds : List DailyCard) : List Card :=
  ds.filterMap (fun d => lookupCard cards d.cardId)

/-- The candidate pool of the handler: the unseen pool, widened to all cards
when fewer than 3 unseen candidates remain. -/
def dailyCandidates (cards : List Card) (logs : List DiscoveryLog) (u : String) :
    List Card :=
  if 3 ≤ (unseenPool cards logs u).length then unseenPool cards logs u else cards

/-- The cards chosen for the day: the random shuffle
(`sort(() => 0.5 - Math.random())`) is passed in as a function `shuffle`,
constrained in the theorems to permute its input, followed by `slice(0, 3)`. -/
def dailySelected (cards : List Card) (logs : List DiscoveryLog) (u : String)
    (shuffle : List Card → List Card) : List Card :=
  (shuffle (dailyCandidates cards logs u)).take 3

/-- Embedding of the GET /api/cards/daily handler.  The first component is
the response (`none` is the 400 for a missing userId, `some cs` the JSON
card list); the second is the DailyCard table after the request. -/
def dailyCards (cards : List Card) (logs : List DiscoveryLog)
    (assigns : List DailyCard) (u : String) (day : Nat)
    (shuffle : List Card → List Card) : Option (List Card) × List DailyCard :=
  if u = "" then (none, assigns)
  else if (todaysAssignments assigns u day).length = 0 then
    (some (dailySelected cards logs u shuffle),
      assigns ++ (dailySelected cards logs u shuffle).map
        (fun c => (⟨u, c.id, day⟩ : DailyCard)))
  else (some (joinCards cards (todaysAssignments assigns u day)), assigns)

/-- A sample card row for concrete instances. -/
def cardA : Card :=
  ⟨1, "Farewell Transmission", "Songs: Ohia", "spotify:track:aaa",
    "/art/a.png", "/art/ca.png", "A painting"⟩

/-- A second sample card row. -/
def cardB : Card :=
  ⟨2, "Archangel", "Burial", "spotify:track:bbb",
    "/art/b.png", "/art/cb.png", "A movie"⟩

/-- A third sample card row. -/
def cardC : Card :=
  ⟨3, "Pagan Poetry", "Bjork", "spotify:track:ccc",
    "/art/c.png", "/art/cc.png", "A series"⟩

/-! ## Playlist reconciler (UserPlaylist table) -/

/-- A row of the UserPlaylist table (surrogate id and createdAt omitted). -/
structure UserPlaylist where
  userId : String
  playlistId : String
deriving DecidableEq, Repr

/-- An upstream playlist as the handlers read it (id and name). -/
structure SpotifyPlaylist where
  id : String
  name : String
deriving DecidableEq, Repr

/-- `prisma.userPlaylist.findUnique` on the unique `userId` key. -/
def findUserPlaylist (rows : List UserPlaylist) (u : String) : Option UserPlaylist :=
  rows.find? (fun r => r.userId == u)

/-- Responses of POST /api/playlist/create: 401 without a bearer token, or
200 with the playlist id. -/
inductive CreateResp where
  | noToken
  | okPlaylist (playlist_id : String)
deriving DecidableEq, Repr

/-- Outcome of POST /api/playlist/create: the response, whether a new
upstream playlist was created, whether the handler fetched any page of the
library of the user (it performs no such fetch), and the table after the
request. -/
structure CreateOutcome where
  resp : CreateResp
  createdUpstream : Bool
  searchedLibrary : Bool
  rows : List UserPlaylist
deriving DecidableEq, Repr

/-- Embedding of the POST /api/playlist/create handler.  `u` is the user id
resolved from the access token, `freshId` the id Spotify returns for a
newly created playlist.  `library` is the paged content of
/v1/me/playlists that a search would have seen; the parameter is unused
because the handler never requests it: with no stored record it directly
creates a new upstream playlist and persists the mapping. -/
def playlistCreate (auth : Option String) (rows : List UserPlaylist)
    (u freshId : String) (library : List (List SpotifyPlaylist)) : CreateOutcome :=
  match auth, library with
  | none, _ => ⟨.noToken, false, false, rows⟩
  | some _, _ =>
    match findUserPlaylist rows u with
    | some r => ⟨.okPlaylist r.playlistId, false, false, rows⟩
    | none => ⟨.okPlaylist freshId, true, false, rows ++ [⟨u, freshId⟩]⟩

/-- Outcome of GET /api/playlist/exists: `none` is the 401 without a token,
`some b` the 200 JSON body, next to the table after the request. -/
structure ExistsOutcome where
  resp : Option Bool
  rows : List UserPlaylist
deriving DecidableEq, Repr

/-- The pagination loop of the exists handler: walk the pages following
`data.next`, stopping at the first page holding a playlist whose name is
exactly (case-sensitively) SoundHaven. -/
def searchPages : List (List SpotifyPlaylist) → Option SpotifyPlaylist
  | [] => none
  | page :: rest =>
    match page.find? (fun p => p.name == "SoundHaven") with
    | some p => some p
    | none => searchPages rest

/-- The fall-through of the exists handler: search the pages and persist the
mapping when a match is found. -/
def searchAndPersist (rows : List UserPlaylist) (u : String)
    (pages : List (List SpotifyPlaylist)) : ExistsOutcome :=
  match searchPages pages with
  | some p => ⟨some true, rows ++ [⟨u, p.id⟩]⟩
  | none => ⟨some false, rows⟩

/-- `prisma.userPlaylist.delete` on the unique `userId` key. -/
def deleteUserPlaylist (rows : List UserPlaylist) (u : String) : List UserPlaylist :=
  rows.filter (fun r => !(r.userId == u))

/-- Embedding of the GET /api/playlist/exists handler.  `checkStatus` is the
HTTP status of the upstream GET /v1/playlists/record.playlistId check (only
reached when a record is stored); `pages` the paged library content. -/
def playlistExists (auth : Option String) (rows : List UserPlaylist) (u : String)
    (checkStatus : Nat) (pages : List (List SpotifyPlaylist)) : ExistsOutcome :=
  match auth with
  | none => ⟨none, rows⟩
  | some _ =>
    match findUserPlaylist rows u with
    | some _ =>
      if checkStatus = 200 then ⟨some true, rows⟩
      else searchAndPersist (deleteUserPlaylist rows u) u pages
    | none => searchAndPersist rows u pages

/-! # Theorems -/

/-! ## Helper lemmas on the discovery ledger -/

/-- A pair with no stored row is not found by `findFirst`. -/
theorem findDiscovery_eq_none (logs : List DiscoveryLog) (u t : String)
    (h : countDiscovery logs u t = 0) : findDiscovery logs u t = none := by
  unfold countDiscovery at h
  rw [List.length_eq_zero, List.filter_eq_nil_iff] at h
  unfold findDiscovery
  rw [List.find?_eq_none]
  exact h

/-- Two stored rows with the same id are equal when the table ids are
pairwise distinct. -/
theorem eq_of_id_eq {logs : List DiscoveryLog}
    (hids : (logs.map DiscoveryLog.id).Nodup)
    {x y : DiscoveryLog} (hx : x ∈ logs) (hy : y ∈ logs) (h : x.id = y.id) :
    x = y :=
  List.inj_on_of_nodup_map hids hx hy h

/-- The POST /api/discovery handler either leaves the table unchanged or
appends the one freshly created row. -/
theorem recordDiscovery_table (logs : List DiscoveryLog) (u c t : String)
    (a : Option Bool) (f : String) :
    (recordDiscovery logs u c t a f).2 = logs ∨
    (recordDiscovery logs u c t a f).2 = logs ++ [⟨f, u, c, t, a.getD false⟩] := by
  unfold recordDiscovery
  by_cases hv : u = "" ∨ c = "" ∨ t = ""
  · rw [if_pos hv]
    exact Or.inl rfl
  · rw [if_neg hv]
    cases hfd : findDiscovery logs u t with
    | some e => exact Or.inl rfl
    | none => exact Or.inr rfl

/-- The mark-as-added handler either leaves the table unchanged or applies
`setAdded e.id` to every row, for the found entry `e` with `added = false`. -/
theorem markAdded_table (logs : List DiscoveryLog) (u t : String) :
    (markAdded logs u t).2 = logs ∨
    (∃ e, findDiscovery logs u t = some e ∧ e.added = false ∧
        (markAdded logs u t).2 = logs.map (setAdded e.id)) := by
  unfold markAdded
  by_cases hv : u = "" ∨ t = ""
  · rw [if_pos hv]
    exact Or.inl rfl
  · rw [if_neg hv]
    cases hfd : findDiscovery logs u t with
    | none => exact Or.inl rfl
    | some e =>
      by_cases hea : e.added = false
      · refine Or.inr ⟨e, rfl, hea, ?_⟩
        simp [hea]
      · refine Or.inl ?_
        simp [hea]

/-! ## Helper lemmas on the daily card selector -/

/-- The handler on a day that already has assignments: memoized branch. -/
theorem dailyCards_memo (cards : List Card) (logs : List DiscoveryLog)
    (assigns : List DailyCard) (u : String) (day : Nat)
    (shuffle : List Card → List Card) (hu : u ≠ "")
    (hne : todaysAssignments assigns u day ≠ []) :
    dailyCards cards logs assigns u day shuffle =
      (some (joinCards cards (todaysAssignments assigns u day)), assigns) := by
  unfold dailyCards
  rw [if_neg hu, if_neg (by simp [hne])]

/-- The handler on a day with no assignments yet: generating branch. -/
theorem dailyCards_fresh (cards : List Card) (logs : List DiscoveryLog)
    (assigns : List DailyCard) (u : String) (day : Nat)
    (shuffle : List Card → List Card) (hu : u ≠ "")
    (he : todaysAssignments assigns u day = []) :
    dailyCards cards logs assigns u day shuffle =
      (some (dailySelected cards logs u shuffle),
        assigns ++ (dailySelected cards logs u shuffle).map
          (fun c => (⟨u, c.id, day⟩ : DailyCard))) := by
  unfold dailyCards
  rw [if_neg hu, if_pos (by simp [he])]

/-- Every candidate is a stored card. -/
theorem mem_of_mem_dailyCandidates {cards : List Card} {logs : List DiscoveryLog}
    {u : String} {c : Card} (h : c ∈ dailyCandidates cards logs u) : c ∈ cards := by
  unfold dailyCandidates at h
  by_cases h3 : 3 ≤ (unseenPool cards logs u).length
  · rw [if_pos h3] at h
    exact List.mem_of_mem_filter h
  · rw [if_neg h3] at h
    exact h

/-- Every selected card is a stored card. -/
theorem mem_of_mem_dailySelected {cards : List Card} {logs : List DiscoveryLog}
    {u : String} {shuffle : List Card → List Card}
    (hsh : ∀ l, (shuffle l).Perm l) {c : Card}
    (h : c ∈ dailySelected cards logs u shuffle) : c ∈ cards := by
  unfold dailySelected at h
  have h1 : c ∈ shuffle (dailyCandidates cards logs u) :=
    (List.take_sublist 3 _).mem h
  exact mem_of_mem_dailyCandidates ((hsh (dailyCandidates cards logs u)).mem_iff.mp h1)

/-- Length of the selection: 3 capped by the candidate count. -/
theorem dailySelected_length (cards : List Card) (logs : List DiscoveryLog)
    (u : String) (shuffle : List Card → List Card)
    (hsh : ∀ l, (shuffle l).Perm l) :
    (dailySelected cards logs u shuffle).length
      = min 3 (dailyCandidates cards logs u).length := by
  unfold dailySelected
  rw [List.length_take, (hsh (dailyCandidates cards logs u)).length_eq]

/-- With at least 3 stored cards there are at least 3 candidates. -/
theorem dailyCandidates_three (cards : List Card) (logs : List DiscoveryLog)
    (u : String) (h3 : 3 ≤ cards.length) :
    3 ≤ (dailyCandidates cards logs u).length := by
  unfold dailyCandidates
  by_cases hp : 3 ≤ (unseenPool cards logs u).length
  · rw [if_pos hp]
    exact hp
  · rw [if_neg hp]
    exact h3

/-- The unseen pool is a filtering of the card table, so no longer. -/
theorem unseenPool_length_le (cards : List Card) (logs : List DiscoveryLog)
    (u : String) : (unseenPool cards logs u).length ≤ cards.length := by
  unfold unseenPool
  exact List.length_filter_le _ _

/-- Capping the candidate count at 3 is the same as capping the card-table
count at 3: the pool is only widened when it is shorter than 3, and when it
is kept it already has at least 3 elements while the table has at least as
many. -/
theorem dailyCandidates_min (cards : List Card) (logs : List DiscoveryLog)
    (u : String) :
    min 3 (dailyCandidates cards logs u).length = min 3 cards.length := by
  unfold dailyCandidates
  by_cases hp : 3 ≤ (unseenPool cards logs u).length
  · rw [if_pos hp]
    have hc : (unseenPool cards logs u).length ≤ cards.length :=
      unseenPool_length_le cards logs u
    omega
  · rw [if_neg hp]

/-- With at least one stored card there is at least one candidate. -/
theorem dailyCandidates_ne_nil (cards : List Card) (logs : List DiscoveryLog)
    (u : String) (hc : cards ≠ []) : dailyCandidates cards logs u ≠ [] := by
  unfold dailyCandidates
  by_cases hp : 3 ≤ (unseenPool cards logs u).length
  · rw [if_pos hp]
    intro hnil
    rw [hnil] at hp
    simp at hp
  · rw [if_neg hp]
    exact hc

/-- Filtering for a day distributes over appended tables. -/
theorem todaysAssignments_append (a b : List DailyCard) (u : String) (day : Nat) :
    todaysAssignments (a ++ b) u day
      = todaysAssignments a u day ++ todaysAssignments b u day := by
  unfold todaysAssignments
  exact List.filter_append a b

/-- The freshly written assignment rows all belong to `(userId, day)`. -/
theorem todaysAssignments_map_self (sel : List Card) (u : String) (day : Nat) :
    todaysAssignments (sel.map (fun c => (⟨u, c.id, day⟩ : DailyCard))) u day
      = sel.map (fun c => (⟨u, c.id, day⟩ : DailyCard)) := by
  unfold todaysAssignments
  rw [List.filter_eq_self]
  intro d hd
  simp only [List.mem_map] at hd
  obtain ⟨c, _, hc⟩ := hd
  rw [← hc]
  simp [isTodays]

/-- A successful foreign-key join returns the card with the looked-up id. -/
theorem lookupCard_id {cards : List Card} {cid : Nat} {c : Card}
    (h : lookupCard cards cid = some c) : c.id = cid := by
  have := List.find?_some h
  simpa using this

/-- On a table with pairwise distinct ids, joining the id of a stored card
finds that card. -/
theorem lookupCard_self {cards : List Card} (hids : (cards.map Card.id).Nodup)
    {c : Card} (hc : c ∈ cards) : lookupCard cards c.id = some c := by
  induction cards with
  | nil => cases hc
  | cons a rest ih =>
    rw [List.map_cons, List.nodup_cons] at hids
    obtain ⟨ha, hrest⟩ := hids
    rcases List.mem_cons.mp hc with rfl | hc2
    · unfold lookupCard
      rw [List.find?_cons_of_pos _ (by simp)]
    · have hne : a.id ≠ c.id := by
        intro heq
        exact ha (heq ▸ List.mem_map_of_mem Card.id hc2)
      unfold lookupCard
      rw [List.find?_cons_of_neg _ (by simp [hne])]
      exact ih hrest hc2

/-- Joining the assignments written for a selection recovers the selection,
when card ids are pairwise distinct. -/
theorem joinCards_map_self (cards : List Card) (hids : (cards.map Card.id).Nodup)
    (u : String) (day : Nat) (sel : List Card) :
    (∀ c ∈ sel, c ∈ cards) →
    joinCards cards (sel.map (fun c => (⟨u, c.id, day⟩ : DailyCard))) = sel := by
  induction sel with
  | nil => intro _; rfl
  | cons c rest ih =>
    intro hsub
    have hc : c ∈ cards := hsub c (List.mem_cons_self c rest)
    have hrest : ∀ x ∈ rest, x ∈ cards :=
      fun x hx => hsub x (List.mem_cons_of_mem c hx)
    unfold joinCards
    rw [List.map_cons, List.filterMap_cons_some (by simpa using lookupCard_self hids hc)]
    exact congrArg (List.cons c) (ih hrest)

/-- The join of assignments with pairwise distinct card ids has no duplicate
cards. -/
theorem joinCards_nodup (cards : List Card) (ds : List DailyCard)
    (h : (ds.map DailyCard.cardId).Nodup) : (joinCards cards ds).Nodup := by
  induction ds with
  | nil => exact List.nodup_nil
  | cons d rest ih =>
    rw [List.map_cons, List.nodup_cons] at h
    obtain ⟨hd, hrest⟩ := h
    unfold joinCards
    cases hlk : lookupCard cards d.cardId with
    | none =>
      have hstep : List.filterMap (fun x => lookupCard cards x.cardId) (d :: rest)
          = List.filterMap (fun x => lookupCard cards x.cardId) rest :=
        List.filterMap_cons_none hlk
      rw [hstep]
      exact ih hrest
    | some c =>
      have hstep : List.filterMap (fun x => lookupCard cards x.cardId) (d :: rest)
          = c :: List.filterMap (fun x => lookupCard cards x.cardId) rest :=
        List.filterMap_cons_some hlk
      rw [hstep]
      rw [List.nodup_cons]
      refine ⟨?_, ih hrest⟩
      intro hmem
      obtain ⟨d2, hd2, hlk2⟩ := List.mem_filterMap.mp hmem
      have h1 : c.id = d2.cardId := lookupCard_id hlk2
      have h2 : c.id = d.cardId := lookupCard_id hlk
      exact hd (h2 ▸ h1 ▸ List.mem_map_of_mem DailyCard.cardId hd2)

/-! ## Claim C1 -/

/-- Claim C1: for every callback request whose error parameter is not
access_denied, if the state parameter is absent or differs from the
spotify_state cookie (including an absent cookie), the response is
400 State mismatch and the token exchange is never invoked. -/
theorem c1_callback_state_mismatch (clientUrl : String)
    (code state error stored : Option String) (tok : TokenResponse)
    (herr : error ≠ some "access_denied")
    (hmis : state = none ∨ state ≠ stored) :
    authCallback clientUrl code state error stored tok =
      ⟨.badRequestText "State mismatch", false⟩ := by
  have hcond : jsTruthy state = false ∨ state ≠ stored := by
    rcases hmis with h | h
    · subst h
      exact Or.inl rfl
    · exact Or.inr h
  unfold authCallback
  rw [if_neg herr, if_pos hcond]

/-- Witness for C1: a concrete request with a mismatching state. -/
theorem c1_callback_state_mismatch_witness :
    (some "other_error" : Option String) ≠ some "access_denied" ∧
    ((some "aaa" : Option String) = none ∨ (some "aaa" : Option String) ≠ some "bbb") ∧
    authCallback "http://app" (some "code1") (some "aaa") (some "other_error")
        (some "bbb") ⟨true, some "tok", none, 3600⟩ =
      ⟨.badRequestText "State mismatch", false⟩ :=
  ⟨by decide, Or.inr (by decide),
    c1_callback_state_mismatch "http://app" (some "code1") (some "aaa")
      (some "other_error") (some "bbb") ⟨true, some "tok", none, 3600⟩
      (by decide) (Or.inr (by decide))⟩

/-! ## Claim C9 -/

/-- Claim C9: a callback whose error parameter equals access_denied is
redirected to the login page with that error code before the state check,
for every state parameter and cookie, and never reaches the exchange. -/
theorem c9_callback_access_denied_first (clientUrl : String)
    (code state stored : Option String) (tok : TokenResponse) :
    authCallback clientUrl code state (some "access_denied") stored tok =
      ⟨.redirect (clientUrl ++ "/login?error=access_denied"), false⟩ := by
  unfold authCallback
  rw [if_pos rfl]

/-! ## Claim C2 -/

/-- Claim C2: on a refresh whose upstream exchange succeeds, the cookie is
re-issued exactly when the upstream response carries a refresh_token, the
stored cookie is untouched when it does not, and the body is the JSON with
the new access token and its expiry.  The hypothesis `hwf` excludes the
degenerate upstream response whose refresh_token field is the empty
string. -/
theorem c2_refresh_cookie_rotation (rt a : String) (tok : TokenResponse)
    (hrt : rt ≠ "") (hok : tok.ok = true) (hat : tok.access_token = some a)
    (ha : a ≠ "") (hwf : tok.refresh_token ≠ some "") :
    (authRefresh (some rt) tok).newRefreshCookie = tok.refresh_token ∧
    ((authRefresh (some rt) tok).newRefreshCookie.isSome = tok.refresh_token.isSome) ∧
    (authRefresh (some rt) tok).resp = .okJson a tok.expires_in := by
  cases htr : tok.refresh_token with
  | none => simp [authRefresh, jsTruthy, hrt, hok, hat, ha, htr]
  | some s =>
    have hs : s ≠ "" := fun h => hwf (by rw [htr, h])
    simp [authRefresh, jsTruthy, hrt, hok, hat, ha, htr, hs]

/-- Witness for C2: a concrete successful refresh that rotates the token. -/
theorem c2_refresh_cookie_rotation_witness :
    ("r1" : String) ≠ "" ∧ ("acc" : String) ≠ "" ∧
    (some "r2" : Option String) ≠ some "" ∧
    (authRefresh (some "r1") ⟨true, some "acc", some "r2", 3600⟩).newRefreshCookie
        = some "r2" ∧
    (authRefresh (some "r1") ⟨true, some "acc", some "r2", 3600⟩).resp
        = .okJson "acc" 3600 :=
  ⟨by decide, by decide, by decide,
    (c2_refresh_cookie_rotation "r1" "acc" ⟨true, some "acc", some "r2", 3600⟩
      (by decide) rfl rfl (by decide) (by decide)).1,
    (c2_refresh_cookie_rotation "r1" "acc" ⟨true, some "acc", some "r2", 3600⟩
      (by decide) rfl rfl (by decide) (by decide)).2.2⟩

/-! ## Claim C3 -/

/-- Claim C3: from a state with no row for the pair, recording twice returns
the same entry id both times, the second call answers already-recorded and
leaves the table untouched, and exactly one row for the pair remains. -/
theorem c3_record_idempotent (logs : List DiscoveryLog)
    (u ct1 ct2 t : String) (a1 a2 : Option Bool) (id1 id2 : String)
    (hu : u ≠ "") (hc1 : ct1 ≠ "") (hc2 : ct2 ≠ "") (ht : t ≠ "")
    (h0 : countDiscovery logs u t = 0) :
    (recordDiscovery logs u ct1 t a1 id1).1.entryId = some id1 ∧
    (recordDiscovery (recordDiscovery logs u ct1 t a1 id1).2 u ct2 t a2 id2).1
        = .already id1 ∧
    (recordDiscovery (recordDiscovery logs u ct1 t a1 id1).2 u ct2 t a2 id2).1.entryId
        = (recordDiscovery logs u ct1 t a1 id1).1.entryId ∧
    (recordDiscovery (recordDiscovery logs u ct1 t a1 id1).2 u ct2 t a2 id2).2
        = (recordDiscovery logs u ct1 t a1 id1).2 ∧
    countDiscovery
        (recordDiscovery (recordDiscovery logs u ct1 t a1 id1).2 u ct2 t a2 id2).2 u t
        = 1 := by
  have hfind : findDiscovery logs u t = none := findDiscovery_eq_none logs u t h0
  have hfilter : logs.filter (matchesPair u t) = [] := by
    have h := h0
    unfold countDiscovery at h
    exact List.length_eq_zero.mp h
  have hmatch : matchesPair u t ⟨id1, u, ct1, t, a1.getD false⟩ = true := by
    simp [matchesPair]
  have h1 : recordDiscovery logs u ct1 t a1 id1 =
      (.created ⟨id1, u, ct1, t, a1.getD false⟩,
        logs ++ [⟨id1, u, ct1, t, a1.getD false⟩]) := by
    unfold recordDiscovery
    rw [if_neg (by simp [hu, hc1, ht]), hfind]
  have hfind2 : findDiscovery (logs ++ [⟨id1, u, ct1, t, a1.getD false⟩]) u t =
      some ⟨id1, u, ct1, t, a1.getD false⟩ := by
    unfold findDiscovery
    rw [List.find?_append]
    unfold findDiscovery at hfind
    rw [hfind]
    simp [List.find?, hmatch]
  have h2 : recordDiscovery (logs ++ [⟨id1, u, ct1, t, a1.getD false⟩]) u ct2 t a2 id2 =
      (.already id1, logs ++ [⟨id1, u, ct1, t, a1.getD false⟩]) := by
    unfold recordDiscovery
    rw [if_neg (by simp [hu, hc2, ht]), hfind2]
  have hr1 : (recordDiscovery logs u ct1 t a1 id1).1
      = .created ⟨id1, u, ct1, t, a1.getD false⟩ := by rw [h1]
  have hs1 : (recordDiscovery logs u ct1 t a1 id1).2
      = logs ++ [⟨id1, u, ct1, t, a1.getD false⟩] := by rw [h1]
  have hcount : countDiscovery (logs ++ [⟨id1, u, ct1, t, a1.getD false⟩]) u t = 1 := by
    unfold countDiscovery
    rw [List.filter_append, hfilter]
    simp [hmatch]
  refine ⟨?_, ?_, ?_, ?_, ?_⟩
  · rw [hr1]
    rfl
  · rw [hs1, h2]
  · rw [hs1, h2, hr1]
    rfl
  · rw [hs1, h2]
  · rw [hs1, h2]
    exact hcount

/-- Witness for C3 on an initially empty ledger. -/
theorem c3_record_idempotent_witness :
    ("u1" : String) ≠ "" ∧ ("CardA" : String) ≠ "" ∧ ("uri:1" : String) ≠ "" ∧
    countDiscovery [] "u1" "uri:1" = 0 ∧
    (recordDiscovery (recordDiscovery [] "u1" "CardA" "uri:1" none "cid1").2
        "u1" "CardA" "uri:1" (some true) "cid2").1 = .already "cid1" ∧
    countDiscovery
        (recordDiscovery (recordDiscovery [] "u1" "CardA" "uri:1" none "cid1").2
          "u1" "CardA" "uri:1" (some true) "cid2").2 "u1" "uri:1" = 1 :=
  ⟨by decide, by decide, by decide, by decide,
    (c3_record_idempotent [] "u1" "CardA" "CardA" "uri:1" none (some true)
      "cid1" "cid2" (by decide) (by decide) (by decide) (by decide) (by decide)).2.1,
    (c3_record_idempotent [] "u1" "CardA" "CardA" "uri:1" none (some true)
      "cid1" "cid2" (by decide) (by decide) (by decide) (by decide)
      (by decide)).2.2.2.2⟩

/-! ## Claim C4 -/

/-- Claim C4: mark-as-added answers 404 when no row matches the pair, is a
pure no-op reporting already-marked when the row is already added, flips
`added` to true otherwise, and no operation of the system ever moves an
`added` field from true back to false. -/
theorem c4_markAdded_monotone (logs : List DiscoveryLog) (u t : String)
    (hu : u ≠ "") (ht : t ≠ "")
    (hids : (logs.map DiscoveryLog.id).Nodup) :
    (findDiscovery logs u t = none → markAdded logs u t = (.notFound, logs)) ∧
    (∀ e, findDiscovery logs u t = some e → e.added = true →
        markAdded logs u t = (.alreadyMarked, logs)) ∧
    (∀ e, findDiscovery logs u t = some e → e.added = false →
        (markAdded logs u t).1 = .updated { e with added := true } ∧
        ∀ l, l ∈ (markAdded logs u t).2 → l.id = e.id → l.added = true) ∧
    (∀ op, opFresh logs op → ∀ l, l ∈ logs → l.added = true →
        ∀ l2, l2 ∈ applyDiscoveryOp logs op → l2.id = l.id → l2.added = true) := by
  have hval : ¬(u = "" ∨ t = "") := by simp [hu, ht]
  have hsame : ∀ l2 : DiscoveryLog, l2 ∈ logs →
      ∀ l : DiscoveryLog, l ∈ logs → l.added = true → l2.id = l.id →
        l2.added = true := by
    intro l2 hl2 l hl hadd hid
    rw [eq_of_id_eq hids hl2 hl hid]
    exact hadd
  have hmapcase : ∀ tid : String, ∀ l2 : DiscoveryLog,
      l2 ∈ logs.map (setAdded tid) →
      ∀ l : DiscoveryLog, l ∈ logs → l.added = true → l2.id = l.id →
        l2.added = true := by
    intro tid l2 hl2 l hl hadd hid
    simp only [List.mem_map] at hl2
    obtain ⟨x, hx, hxl⟩ := hl2
    by_cases hxe : x.id = tid
    · rw [← hxl]
      simp [setAdded, hxe]
    · rw [← hxl] at hid ⊢
      simp only [setAdded, if_neg hxe] at hid ⊢
      rw [eq_of_id_eq hids hx hl hid]
      exact hadd
  refine ⟨?_, ?_, ?_, ?_⟩
  · intro hnone
    unfold markAdded
    rw [if_neg hval, hnone]
  · intro e he hadd
    unfold markAdded
    rw [if_neg hval, he]
    simp [hadd]
  · intro e he hadd
    have hm : markAdded logs u t =
        (.updated { e with added := true }, logs.map (setAdded e.id)) := by
      unfold markAdded
      rw [if_neg hval, he]
      simp [hadd]
    rw [hm]
    refine ⟨rfl, ?_⟩
    intro l hl hid
    simp only [List.mem_map] at hl
    obtain ⟨x, hx, hxl⟩ := hl
    by_cases hxe : x.id = e.id
    · rw [← hxl]
      simp [setAdded, hxe]
    · rw [← hxl] at hid
      simp only [setAdded, if_neg hxe] at hid
      exact absurd hid hxe
  · intro op hfresh l hl hadd l2 hl2 hid
    cases op with
    | record ru rc rt ra rf =>
      simp only [applyDiscoveryOp] at hl2
      rcases recordDiscovery_table logs ru rc rt ra rf with htab | htab
      · rw [htab] at hl2
        exact hsame l2 hl2 l hl hadd hid
      · rw [htab] at hl2
        rcases List.mem_append.mp hl2 with h | h
        · exact hsame l2 h l hl hadd hid
        · exfalso
          have hne : l.id ≠ rf := hfresh l hl
          have hl2id : l2.id = rf := by
            rw [List.mem_singleton] at h
            rw [h]
          rw [hid] at hl2id
          exact hne hl2id
    | mark mu mt =>
      simp only [applyDiscoveryOp] at hl2
      rcases markAdded_table logs mu mt with htab | ⟨e, _, _, htab⟩
      · rw [htab] at hl2
        exact hsame l2 hl2 l hl hadd hid
      · rw [htab] at hl2
        exact hmapcase e.id l2 hl2 l hl hadd hid
    | cascadeDelete du =>
      simp only [applyDiscoveryOp] at hl2
      exact hsame l2 (List.mem_of_mem_filter hl2) l hl hadd hid

/-- Witness for C4 on a concrete one-row ledger with an already-added row. -/
theorem c4_markAdded_monotone_witness :
    ("u1" : String) ≠ "" ∧ ("uri:1" : String) ≠ "" ∧
    markAdded [⟨"cid1", "u1", "CardA", "uri:1", true⟩] "u1" "uri:1"
      = (.alreadyMarked, [⟨"cid1", "u1", "CardA", "uri:1", true⟩]) :=
  ⟨by decide, by decide,
    (c4_markAdded_monotone [⟨"cid1", "u1", "CardA", "uri:1", true⟩] "u1" "uri:1"
      (by decide) (by decide) (by decide)).2.1
      ⟨"cid1", "u1", "CardA", "uri:1", true⟩ (by decide) rfl⟩

/-! ## Claim C5 (corrected) -/

/-- Counterexample to C5 as stated: on a card pool of size 2 the first
computation of the day stores only 2 assignments for the user and day, not
exactly 3. -/
theorem c5_counterexample :
    (todaysAssignments
        (dailyCards [cardA, cardB] [] [] "u1" 0 (fun l => l)).2 "u1" 0).length
      ≠ 3 := by
  decide

/-- Claim C5 as amended: once assignments exist for the user and day, every
later call that day returns exactly the cards of the stored assignments and
writes nothing; the first computation stores min(3, card-table size)
assignments — exactly 3 whenever at least 3 cards exist; and a repeated
call after the computation — with any other shuffle — returns the same
response and leaves the table unchanged (no reshuffle). -/
theorem c5_daily_memoized (cards : List Card) (logs : List DiscoveryLog)
    (assigns : List DailyCard) (u : String) (day : Nat)
    (shuffle shuffle2 : List Card → List Card)
    (hu : u ≠ "") (hsh : ∀ l, (shuffle l).Perm l)
    (hids : (cards.map Card.id).Nodup) :
    (todaysAssignments assigns u day ≠ [] →
        dailyCards cards logs assigns u day shuffle =
          (some (joinCards cards (todaysAssignments assigns u day)), assigns)) ∧
    (todaysAssignments assigns u day = [] →
        (todaysAssignments (dailyCards cards logs assigns u day shuffle).2 u day).length
          = min 3 cards.length) ∧
    (todaysAssignments assigns u day = [] → cards ≠ [] →
        dailyCards cards logs (dailyCards cards logs assigns u day shuffle).2
            u day shuffle2
          = ((dailyCards cards logs assigns u day shuffle).1,
              (dailyCards cards logs assigns u day shuffle).2)) := by
  refine ⟨fun hne => dailyCards_memo cards logs assigns u day shuffle hu hne, ?_, ?_⟩
  · intro he
    have hfresh := dailyCards_fresh cards logs assigns u day shuffle hu he
    have hs2 : (dailyCards cards logs assigns u day shuffle).2
        = assigns ++ (dailySelected cards logs u shuffle).map
            (fun c => (⟨u, c.id, day⟩ : DailyCard)) := by rw [hfresh]
    rw [hs2, todaysAssignments_append, he, List.nil_append,
        todaysAssignments_map_self, List.length_map,
        dailySelected_length cards logs u shuffle hsh,
        dailyCandidates_min cards logs u]
  · intro he hcne
    have hfresh := dailyCards_fresh cards logs assigns u day shuffle hu he
    have hs2 : (dailyCards cards logs assigns u day shuffle).2
        = assigns ++ (dailySelected cards logs u shuffle).map
            (fun c => (⟨u, c.id, day⟩ : DailyCard)) := by rw [hfresh]
    have hr1 : (dailyCards cards logs assigns u day shuffle).1
        = some (dailySelected cards logs u shuffle) := by rw [hfresh]
    have hc1 : 1 ≤ (dailyCandidates cards logs u).length :=
      List.length_pos.mpr (dailyCandidates_ne_nil cards logs u hcne)
    have hs1 : 1 ≤ (dailySelected cards logs u shuffle).length := by
      rw [dailySelected_length cards logs u shuffle hsh]
      exact le_min (by omega) hc1
    have hsel_ne : dailySelected cards logs u shuffle ≠ [] := by
      intro hnil
      rw [hnil] at hs1
      simp at hs1
    have hta : todaysAssignments ((dailyCards cards logs assigns u day shuffle).2) u day
        = (dailySelected cards logs u shuffle).map
            (fun c => (⟨u, c.id, day⟩ : DailyCard)) := by
      rw [hs2, todaysAssignments_append, he, List.nil_append,
          todaysAssignments_map_self]
    have htane : todaysAssignments ((dailyCards cards logs assigns u day shuffle).2)
        u day ≠ [] := by
      rw [hta]
      intro hnil
      exact hsel_ne (List.map_eq_nil_iff.mp hnil)
    rw [dailyCards_memo cards logs ((dailyCards cards logs assigns u day shuffle).2)
        u day shuffle2 hu htane, hta,
      joinCards_map_self cards hids u day (dailySelected cards logs u shuffle)
        (fun c hc => mem_of_mem_dailySelected hsh hc), hr1]

/-- Witness for the amended C5, exercising the memoized branch on a
concrete table and the min-count on a concrete two-card pool. -/
theorem c5_daily_memoized_witness :
    todaysAssignments [⟨"u1", 1, 0⟩] "u1" 0 ≠ [] ∧
    dailyCards [cardA, cardB, cardC] [] [⟨"u1", 1, 0⟩] "u1" 0 (fun l => l)
      = (some (joinCards [cardA, cardB, cardC] (todaysAssignments [⟨"u1", 1, 0⟩] "u1" 0)),
          [⟨"u1", 1, 0⟩]) ∧
    todaysAssignments ([] : List DailyCard) "u1" 0 = [] ∧
    (todaysAssignments
        (dailyCards [cardA, cardB] [] [] "u1" 0 (fun l => l)).2 "u1" 0).length
      = min 3 ([cardA, cardB] : List Card).length :=
  ⟨by decide,
    (c5_daily_memoized [cardA, cardB, cardC] [] [⟨"u1", 1, 0⟩] "u1" 0
      (fun l => l) (fun l => l) (by decide) (fun l => List.Perm.refl l)
      (by decide)).1 (by decide),
    by decide,
    (c5_daily_memoized [cardA, cardB] [] [] "u1" 0
      (fun l => l) (fun l => l) (by decide) (fun l => List.Perm.refl l)
      (by decide)).2.1 (by decide)⟩

/-! ## Claim C6 (corrected) -/

/-- Counterexample to C6 as stated: with a card pool of size 2 and a user
with no discoveries the handler returns 2 cards, not a list padded with
repeats to 3. -/
theorem c6_counterexample :
    ((dailyCards [cardA, cardB] [] [] "u1" 0 (fun l => l)).1.getD []).length ≠ 3 := by
  decide

/-- Claim C6 as amended: with a card pool of size 2 and a user with no
discovery history the handler does not fail — the candidate pool is widened
to all cards and the response holds all cards of the pool (a permutation of
them), so it has 2 = min 3 2 cards, without repeats. -/
theorem c6_small_pool (cards : List Card) (logs : List DiscoveryLog)
    (u : String) (day : Nat) (shuffle : List Card → List Card)
    (hu : u ≠ "") (hsh : ∀ l, (shuffle l).Perm l)
    (hlen : cards.length = 2) (hseen : seenUris logs u = []) :
    (dailyCards cards logs [] u day shuffle).1 = some (shuffle cards) ∧
    (shuffle cards).Perm cards ∧ (shuffle cards).length = 2 := by
  have he : todaysAssignments [] u day = [] := rfl
  have hpool : unseenPool cards logs u = cards := by
    unfold unseenPool
    rw [List.filter_eq_self]
    intro c hc
    simp [hseen]
  have hcand : dailyCandidates cards logs u = cards := by
    unfold dailyCandidates
    rw [hpool, ite_self]
  have hsel : dailySelected cards logs u shuffle = shuffle cards := by
    unfold dailySelected
    rw [hcand]
    apply List.take_of_length_le
    rw [(hsh cards).length_eq, hlen]
    omega
  refine ⟨?_, hsh cards, ?_⟩
  · rw [dailyCards_fresh cards logs [] u day shuffle hu he, hsel]
  · rw [(hsh cards).length_eq, hlen]

/-- Witness for the amended C6 on a concrete two-card pool. -/
theorem c6_small_pool_witness :
    ([cardA, cardB].length = 2) ∧
    (dailyCards [cardA, cardB] [] [] "u1" 0 (fun l => l)).1 = some [cardA, cardB] ∧
    ([cardA, cardB] : List Card).length = 2 :=
  ⟨by decide,
    (c6_small_pool [cardA, cardB] [] "u1" 0 (fun l => l) (by decide)
      (fun l => List.Perm.refl l) (by decide) (by decide)).1,
    (c6_small_pool [cardA, cardB] [] "u1" 0 (fun l => l) (by decide)
      (fun l => List.Perm.refl l) (by decide) (by decide)).2.2⟩

/-! ## Claim C10 -/

/-- Claim C10: the cards the daily handler returns for a user and day are
pairwise distinct, in both branches — the fresh selection is a slice of a
permutation of distinct card rows, and the memoized join reads assignments
whose card ids are unique for the user and day (the store unique
constraint). -/
theorem c10_daily_cards_distinct (cards : List Card) (logs : List DiscoveryLog)
    (assigns : List DailyCard) (u : String) (day : Nat)
    (shuffle : List Card → List Card)
    (hsh : ∀ l, (shuffle l).Perm l)
    (hids : (cards.map Card.id).Nodup)
    (hasg : ((todaysAssignments assigns u day).map DailyCard.cardId).Nodup) :
    ((dailyCards cards logs assigns u day shuffle).1.getD []).Nodup := by
  by_cases hu : u = ""
  · unfold dailyCards
    rw [if_pos hu]
    exact List.nodup_nil
  · by_cases he : todaysAssignments assigns u day = []
    · rw [dailyCards_fresh cards logs assigns u day shuffle hu he]
      have hcards : cards.Nodup := hids.of_map
      have hcand : (dailyCandidates cards logs u).Nodup := by
        unfold dailyCandidates
        by_cases hp : 3 ≤ (unseenPool cards logs u).length
        · rw [if_pos hp]
          exact List.Nodup.sublist (List.filter_sublist cards) hcards
        · rw [if_neg hp]
          exact hcards
      have hshuf : (shuffle (dailyCandidates cards logs u)).Nodup :=
        ((hsh (dailyCandidates cards logs u)).nodup_iff).mpr hcand
      exact List.Nodup.sublist (List.take_sublist 3 _) hshuf
    · rw [dailyCards_memo cards logs assigns u day shuffle hu he]
      exact joinCards_nodup cards (todaysAssignments assigns u day) hasg

/-- Witness for C10 on a concrete two-card pool. -/
theorem c10_daily_cards_distinct_witness :
    (([cardA, cardB].map Card.id).Nodup) ∧
    ((dailyCards [cardA, cardB] [] [] "u1" 0 (fun l => l)).1.getD []).Nodup :=
  ⟨by decide,
    c10_daily_cards_distinct [cardA, cardB] [] [] "u1" 0 (fun l => l)
      (fun l => List.Perm.refl l) (by decide) (by decide)⟩

/-! ## Claim C7 (corrected) -/

/-- Counterexample to C7 as stated: with no stored record and a library page
holding a playlist named SoundHaven with id existingPl, the create handler
neither searches the library nor returns the matching id — it creates a new
upstream playlist and answers with the fresh id. -/
theorem c7_counterexample :
    (playlistCreate (some "tok") [] "user1" "freshPl"
        [[⟨"existingPl", "SoundHaven"⟩]]).searchedLibrary = false ∧
    (playlistCreate (some "tok") [] "user1" "freshPl"
        [[⟨"existingPl", "SoundHaven"⟩]]).createdUpstream = true ∧
    (playlistCreate (some "tok") [] "user1" "freshPl"
        [[⟨"existingPl", "SoundHaven"⟩]]).resp ≠ .okPlaylist "existingPl" := by
  decide

/-- Claim C7 as amended: when no stored record exists for the user, the
create handler immediately creates a new upstream playlist — without paging
through the library of the user — persists the mapping and returns the
fresh id; when a record exists it returns the stored id and creates
nothing.  (The paged name-search exists only in GET /api/playlist/exists.) -/
theorem c7_create_no_search (tk : String) (rows : List UserPlaylist)
    (u freshId : String) (library : List (List SpotifyPlaylist)) :
    (findUserPlaylist rows u = none →
        playlistCreate (some tk) rows u freshId library =
          ⟨.okPlaylist freshId, true, false, rows ++ [⟨u, freshId⟩]⟩) ∧
    (∀ r, findUserPlaylist rows u = some r →
        playlistCreate (some tk) rows u freshId library =
          ⟨.okPlaylist r.playlistId, false, false, rows⟩) := by
  constructor
  · intro h
    unfold playlistCreate
    rw [h]
  · intro r h
    unfold playlistCreate
    rw [h]

/-- Witness for the amended C7 on an empty table. -/
theorem c7_create_no_search_witness :
    findUserPlaylist [] "user1" = none ∧
    playlistCreate (some "tok") [] "user1" "pl9" []
      = ⟨.okPlaylist "pl9", true, false, [⟨"user1", "pl9"⟩]⟩ :=
  ⟨by decide, (c7_create_no_search "tok" [] "user1" "pl9" []).1 (by decide)⟩

/-! ## Claim C8 -/

/-- Claim C8: the exists handler follows the robust path — with a stored
record whose upstream check answers 200 it responds exists true and leaves
the table unchanged; with any other status it deletes the stale record and
falls through to the paged name-search, re-persisting a mapping exactly
when a playlist named SoundHaven is found. -/
theorem c8_exists_robust (tk : String) (rows : List UserPlaylist) (u : String)
    (st : Nat) (pages : List (List SpotifyPlaylist)) :
    (∀ r, findUserPlaylist rows u = some r → st = 200 →
        playlistExists (some tk) rows u st pages = ⟨some true, rows⟩) ∧
    (∀ r, findUserPlaylist rows u = some r → st ≠ 200 →
        ((∀ p, searchPages pages = some p →
            playlistExists (some tk) rows u st pages =
              ⟨some true, deleteUserPlaylist rows u ++ [⟨u, p.id⟩]⟩) ∧
          (searchPages pages = none →
            playlistExists (some tk) rows u st pages =
              ⟨some false, deleteUserPlaylist rows u⟩))) := by
  constructor
  · intro r h h200
    simp [playlistExists, h, h200]
  · intro r h hne
    constructor
    · intro p hp
      simp [playlistExists, searchAndPersist, h, hne, hp]
    · intro hp
      simp [playlistExists, searchAndPersist, h, hne, hp]

/-- Witness for C8: a stored record whose upstream check answers 200. -/
theorem c8_exists_robust_witness :
    findUserPlaylist [⟨"u1", "pl1"⟩] "u1" = some ⟨"u1", "pl1"⟩ ∧
    playlistExists (some "tok") [⟨"u1", "pl1"⟩] "u1" 200 []
      = ⟨some true, [⟨"u1", "pl1"⟩]⟩ :=
  ⟨by decide,
    (c8_exists_robust "tok" [⟨"u1", "pl1"⟩] "u1" 200 []).1 ⟨"u1", "pl1"⟩
      (by decide) rfl⟩

end SoundHaven
